import Mathlib

/-!
# PawGate — verification of the keyboard interception and hotkey-matching engine

Shallow embedding of the Rust sources of `pawgate-rs` (files `keyboard.rs`,
`config.rs`, `main.rs`, `tray.rs`).  The Windows-specific plumbing
(`SetWindowsHookEx`, message pumps, `GetAsyncKeyState`) is abstracted:
the live modifier state queried from the OS becomes an explicit
`ModifierSnapshot` argument, the shared atomic lock flag becomes an explicit
`Bool` threaded through the hook callback, and the callback returns a
verdict (swallow vs. forward) together with the new lock state.
-/

namespace PawGate

/-! ## Windows constants

Virtual key codes and hotkey modifier flags, with the numeric values of the
`windows` crate used by the source (`keyboard.rs` lines 27–35 and the
`MOD_*` constants). -/

def VK_LCONTROL : Nat := 0xA2
def VK_RCONTROL : Nat := 0xA3
def VK_LSHIFT : Nat := 0xA0
def VK_RSHIFT : Nat := 0xA1
def VK_LMENU : Nat := 0xA4
def VK_RMENU : Nat := 0xA5
def VK_LWIN : Nat := 0x5B
def VK_RWIN : Nat := 0x5C
def VK_CONTROL : Nat := 0x11
def VK_SHIFT : Nat := 0x10
def VK_MENU : Nat := 0x12

def MOD_ALT : Nat := 0x1
def MOD_CONTROL : Nat := 0x2
def MOD_SHIFT : Nat := 0x4
def MOD_WIN : Nat := 0x8

def VK_F1 : Nat := 0x70
def VK_SPACE : Nat := 0x20
def VK_RETURN : Nat := 0x0D
def VK_ESCAPE : Nat := 0x1B
def VK_TAB : Nat := 0x09
def VK_BACK : Nat := 0x08
def VK_DELETE : Nat := 0x2E
def VK_INSERT : Nat := 0x2D
def VK_HOME : Nat := 0x24
def VK_END : Nat := 0x23
def VK_PRIOR : Nat := 0x21
def VK_NEXT : Nat := 0x22
def VK_UP : Nat := 0x26
def VK_DOWN : Nat := 0x28
def VK_LEFT : Nat := 0x25
def VK_RIGHT : Nat := 0x27
def VK_NUMLOCK : Nat := 0x90
def VK_SCROLL : Nat := 0x91
def VK_PAUSE : Nat := 0x13
def VK_SNAPSHOT : Nat := 0x2C

/-- Window messages that count as key-down events (`keyboard.rs` line 158). -/
def WM_KEYDOWN : Nat := 0x100
def WM_SYSKEYDOWN : Nat := 0x104

/-! ## Data model -/

/-- The live pressed state of the four modifier roles, as the source queries
it per event through `GetAsyncKeyState` (`is_modifier_pressed`,
`keyboard.rs` lines 88–111).  The OS query is abstracted into this explicit
snapshot. -/
structure ModifierSnapshot where
  ctrl : Bool
  shift : Bool
  alt : Bool
  win : Bool
deriving DecidableEq, Repr

/-- Function `is_modifier_pressed` of `keyboard.rs` lines 88–111, with the
`GetAsyncKeyState` queries replaced by the corresponding snapshot field
(left-or-right pressed is collapsed into one field per role). -/
def is_modifier_pressed (live : ModifierSnapshot) (modifier : Nat) : Bool :=
  if modifier = MOD_CONTROL then live.ctrl
  else if modifier = MOD_SHIFT then live.shift
  else if modifier = MOD_ALT then live.alt
  else if modifier = MOD_WIN then live.win
  else false

/-- Function `check_modifiers` of `keyboard.rs` lines 114–129: all required modifiers
pressed and no extra ones. -/
def check_modifiers (required : Nat) (live : ModifierSnapshot) : Bool :=
  let ctrl_required := required &&& MOD_CONTROL != 0
  let shift_required := required &&& MOD_SHIFT != 0
  let alt_required := required &&& MOD_ALT != 0
  let win_required := required &&& MOD_WIN != 0
  let ctrl_pressed := is_modifier_pressed live MOD_CONTROL
  let shift_pressed := is_modifier_pressed live MOD_SHIFT
  let alt_pressed := is_modifier_pressed live MOD_ALT
  let win_pressed := is_modifier_pressed live MOD_WIN
  ctrl_required == ctrl_pressed
    && shift_required == shift_pressed
    && alt_required == alt_pressed
    && win_required == win_pressed

/-- Function `is_modifier_vk` of `keyboard.rs` lines 132–147. -/
def is_modifier_vk (vk : Nat) : Bool :=
  vk = VK_LCONTROL || vk = VK_RCONTROL
    || vk = VK_LSHIFT || vk = VK_RSHIFT
    || vk = VK_LMENU || vk = VK_RMENU
    || vk = VK_LWIN || vk = VK_RWIN
    || vk = VK_CONTROL || vk = VK_SHIFT || vk = VK_MENU

/-- The per-thread hook state stored for the callback
(`HookState`, `keyboard.rs` lines 21–25; the `Arc<AppState>` is threaded
separately as the explicit lock flag). -/
structure HookState where
  hotkey_modifiers : Nat
  hotkey_vk : Nat
deriving DecidableEq, Repr

/-- The two possible verdicts of the hook callback: `swallow` models
`return LRESULT(1)` (the event is suppressed), `forward` models
`CallNextHookEx` (the event passes through). -/
inductive Verdict where
  | swallow
  | forward
deriving DecidableEq, Repr

/-- Whether a `wparam` value denotes a key-down event
(`keyboard.rs` line 158). -/
def is_keydown (wparam : Nat) : Bool :=
  wparam == WM_KEYDOWN || wparam == WM_SYSKEYDOWN

/-- The body of the hook callback for an event this layer owns
(`keyboard_hook_proc`, `keyboard.rs` lines 160–194, the part inside
`HOOK_STATE.with` when the hook state is present).  Input: the stored hook
state, the event's `wparam` and virtual key code, the live modifier
snapshot, and the current value of the atomic `locked` flag.  Output: the
verdict and the new value of `locked`. -/
def hook_body (hk : HookState) (wparam : Nat) (vk_code : Nat)
    (live : ModifierSnapshot) (is_locked : Bool) : Verdict × Bool :=
  if is_keydown wparam && !is_modifier_vk vk_code
      && (vk_code == hk.hotkey_vk && check_modifiers hk.hotkey_modifiers live) then
    -- Toggle lock state, block this keypress so it doesn't pass through
    (Verdict.swallow, !is_locked)
  else if is_locked then
    if is_modifier_vk vk_code then
      -- Pass through modifier keys
      (Verdict.forward, is_locked)
    else
      -- Block everything else
      (Verdict.swallow, is_locked)
  else
    (Verdict.forward, is_locked)

/-- Function `keyboard_hook_proc` of `keyboard.rs` lines 150–198: a negative hook
code, or an absent hook state, forwards the event unmodified; otherwise the
callback body runs. -/
def keyboard_hook_proc (hk : Option HookState) (code : Int) (wparam : Nat)
    (vk_code : Nat) (live : ModifierSnapshot) (is_locked : Bool) :
    Verdict × Bool :=
  if 0 ≤ code then
    match hk with
    | some hook_state => hook_body hook_state wparam vk_code live is_locked
    | none => (Verdict.forward, is_locked)
  else
    (Verdict.forward, is_locked)

/-! ## Hotkey parsing (`config.rs`)

The Rust string primitives used by `parse_hotkey` (`to_lowercase`,
`split('+')`, `trim`, `starts_with('f')`, byte slicing, `u32` parsing) are
embedded as structurally recursive functions over the character list of a
`String`, so that every definition evaluates by kernel reduction. -/

/-- Rust `str::split('+')` accumulated into a list of parts: splitting the
character list at every `+`, keeping empty parts (so `"ctrl++"` yields
`["ctrl", "", ""]` and `""` yields `[""]`). -/
def splitPlusAux : List Char → List Char → List (List Char)
  | [], acc => [acc.reverse]
  | c :: rest, acc =>
    if c = '+' then acc.reverse :: splitPlusAux rest []
    else splitPlusAux rest (c :: acc)

/-- Rust `str::split('+')` on a string. -/
def rsSplitPlus (s : String) : List String :=
  (splitPlusAux s.data []).map String.mk

/-- Rust `str::trim`: drop whitespace from both ends. -/
def rsTrim (s : String) : String :=
  ⟨((s.data.dropWhile Char.isWhitespace).reverse.dropWhile
      Char.isWhitespace).reverse⟩

/-- Rust `str::to_lowercase` (on the ASCII hotkey alphabet it lowercases
each character in place). -/
def rsToLower (s : String) : String :=
  ⟨s.data.map Char.toLower⟩

/-- Rust byte slice `key[1..]` as used after `starts_with('f')`: the first
character is the one-byte `f`, so this is dropping the first character. -/
def rsDropOne (s : String) : String :=
  ⟨s.data.drop 1⟩

/-- Rust `str::parse::<u32>()` restricted to the inputs reachable in
`parse_hotkey` (parts contain no `+` or `-`, and the arm's length guard
keeps values at most two digits, so no overflow): all-digit nonempty
strings parse to their value, everything else fails. -/
def rsParseU32 (s : String) : Option Nat :=
  if s.data ≠ [] && s.data.all Char.isDigit then
    some (s.data.foldl (fun n c => n * 10 + (c.toNat - 48)) 0)
  else none

/-- One iteration of the `for part in parts` loop of `parse_hotkey`
(`config.rs` lines 101–146): the accumulator is the pair
`(modifiers, vk_code)` and each token either ORs in a modifier flag, sets
the trigger key, or does nothing.  The `if`-chain replicates the order of
the Rust `match` arms. -/
def applyPart (acc : Nat × Option Nat) (part : String) : Nat × Option Nat :=
  let modifiers := acc.1
  let vk_code := acc.2
  if part = "ctrl" || part = "control" then (modifiers ||| MOD_CONTROL, vk_code)
  else if part = "alt" then (modifiers ||| MOD_ALT, vk_code)
  else if part = "shift" then (modifiers ||| MOD_SHIFT, vk_code)
  else if part = "win" || part = "windows" then (modifiers ||| MOD_WIN, vk_code)
  -- Single letter keys (Rust `key.len()` is the byte length)
  else if part.utf8ByteSize = 1 then
    let c := part.front.toUpper
    if c.isAlpha then (modifiers, some c.toNat)
    else if c.isDigit then (modifiers, some c.toNat)
    else (modifiers, vk_code)
  -- Function keys
  else if part.front = 'f' && part.utf8ByteSize ≤ 3 then
    match rsParseU32 (rsDropOne part) with
    | some num =>
        if 1 ≤ num && num ≤ 24 then (modifiers, some (VK_F1 + num - 1))
        else (modifiers, vk_code)
    | none => (modifiers, vk_code)
  -- Special keys
  else if part = "space" then (modifiers, some VK_SPACE)
  else if part = "enter" || part = "return" then (modifiers, some VK_RETURN)
  else if part = "escape" || part = "esc" then (modifiers, some VK_ESCAPE)
  else if part = "tab" then (modifiers, some VK_TAB)
  else if part = "backspace" then (modifiers, some VK_BACK)
  else if part = "delete" || part = "del" then (modifiers, some VK_DELETE)
  else if part = "insert" || part = "ins" then (modifiers, some VK_INSERT)
  else if part = "home" then (modifiers, some VK_HOME)
  else if part = "end" then (modifiers, some VK_END)
  else if part = "pageup" || part = "pgup" then (modifiers, some VK_PRIOR)
  else if part = "pagedown" || part = "pgdn" then (modifiers, some VK_NEXT)
  else if part = "up" then (modifiers, some VK_UP)
  else if part = "down" then (modifiers, some VK_DOWN)
  else if part = "left" then (modifiers, some VK_LEFT)
  else if part = "right" then (modifiers, some VK_RIGHT)
  else if part = "numlock" then (modifiers, some VK_NUMLOCK)
  else if part = "scrolllock" then (modifiers, some VK_SCROLL)
  else if part = "pause" then (modifiers, some VK_PAUSE)
  else if part = "printscreen" || part = "prtsc" then (modifiers, some VK_SNAPSHOT)
  else (modifiers, vk_code)

/-- The token list of a hotkey string: lowercase, split on `+`, each part
trimmed (`config.rs` line 96). -/
def hotkeyParts (hotkey : String) : List String :=
  (rsSplitPlus (rsToLower hotkey)).map (fun s => rsTrim s)

/-- Function `parse_hotkey` of `config.rs` lines 93–149: fold the token-processing
loop over the parts, then return `(modifiers, vk)` when a trigger key was
set and `none` otherwise. -/
def parse_hotkey (hotkey : String) : Option (Nat × Nat) :=
  let folded := (hotkeyParts hotkey).foldl applyPart (0, none)
  folded.2.map (fun vk => (folded.1, vk))

/-- The binding the Hook Engine actually runs with
(`run_keyboard_hook`, `keyboard.rs` line 40): the parsed binding, or the
built-in default `Control+B` when parsing yields no binding. -/
def resolve_binding (hotkey : String) : Nat × Nat :=
  (parse_hotkey hotkey).getD (MOD_CONTROL, 0x42)

/-- The trigger key resolved by a single token of `parse_hotkey`, `none`
for modifier tokens and unrecognized tokens: the arm-by-arm key action of
the loop body (`config.rs` lines 101–146), used to state which token sets
the trigger key. -/
def partKey (part : String) : Option Nat :=
  if part = "ctrl" || part = "control" then none
  else if part = "alt" then none
  else if part = "shift" then none
  else if part = "win" || part = "windows" then none
  else if part.utf8ByteSize = 1 then
    let c := part.front.toUpper
    if c.isAlpha then some c.toNat
    else if c.isDigit then some c.toNat
    else none
  else if part.front = 'f' && part.utf8ByteSize ≤ 3 then
    match rsParseU32 (rsDropOne part) with
    | some num =>
        if 1 ≤ num && num ≤ 24 then some (VK_F1 + num - 1)
        else none
    | none => none
  else if part = "space" then some VK_SPACE
  else if part = "enter" || part = "return" then some VK_RETURN
  else if part = "escape" || part = "esc" then some VK_ESCAPE
  else if part = "tab" then some VK_TAB
  else if part = "backspace" then some VK_BACK
  else if part = "delete" || part = "del" then some VK_DELETE
  else if part = "insert" || part = "ins" then some VK_INSERT
  else if part = "home" then some VK_HOME
  else if part = "end" then some VK_END
  else if part = "pageup" || part = "pgup" then some VK_PRIOR
  else if part = "pagedown" || part = "pgdn" then some VK_NEXT
  else if part = "up" then some VK_UP
  else if part = "down" then some VK_DOWN
  else if part = "left" then some VK_LEFT
  else if part = "right" then some VK_RIGHT
  else if part = "numlock" then some VK_NUMLOCK
  else if part = "scrolllock" then some VK_SCROLL
  else if part = "pause" then some VK_PAUSE
  else if part = "printscreen" || part = "prtsc" then some VK_SNAPSHOT
  else none

/-! ## Formatting a binding back to text

The repository has no formatter (the settings dialog keeps the raw string),
but the spec requires a parsing round-trip through one. -/

/-- Modelled from the spec: the canonical configuration text of a trigger
key — missing from the source, which never formats a binding.  Letters and
digits become their single character, function keys `f1`–`f24`, and the
named keys the names of the spec's fixed table (space, enter, escape, tab,
backspace, delete, insert, home, end, page up/down, arrows, numlock,
scroll-lock, pause, print-screen). -/
def vk_name (vk : Nat) : Option String :=
  if 0x41 ≤ vk ∧ vk ≤ 0x5A then some ⟨[Char.ofNat (vk + 32)]⟩
  else if 0x30 ≤ vk ∧ vk ≤ 0x39 then some ⟨[Char.ofNat vk]⟩
  else if VK_F1 ≤ vk ∧ vk ≤ VK_F1 + 23 then
    some ("f" ++ toString (vk - VK_F1 + 1))
  else if vk = VK_SPACE then some "space"
  else if vk = VK_RETURN then some "enter"
  else if vk = VK_ESCAPE then some "escape"
  else if vk = VK_TAB then some "tab"
  else if vk = VK_BACK then some "backspace"
  else if vk = VK_DELETE then some "delete"
  else if vk = VK_INSERT then some "insert"
  else if vk = VK_HOME then some "home"
  else if vk = VK_END then some "end"
  else if vk = VK_PRIOR then some "pageup"
  else if vk = VK_NEXT then some "pagedown"
  else if vk = VK_UP then some "up"
  else if vk = VK_DOWN then some "down"
  else if vk = VK_LEFT then some "left"
  else if vk = VK_RIGHT then some "right"
  else if vk = VK_NUMLOCK then some "numlock"
  else if vk = VK_SCROLL then some "scrolllock"
  else if vk = VK_PAUSE then some "pause"
  else if vk = VK_SNAPSHOT then some "printscreen"
  else none

/-- Modelled from the spec: format a `HotkeyBinding` back to hotkey text —
missing from the source.  The held modifier flags become their tokens, the
trigger key its canonical name, joined with `+` in configuration style
(`"ctrl+shift+b"`). -/
def format_hotkey (modifiers vk : Nat) : Option String :=
  (vk_name vk).map (fun key =>
    String.intercalate "+"
      ((if modifiers &&& MOD_CONTROL != 0 then ["ctrl"] else [])
        ++ (if modifiers &&& MOD_SHIFT != 0 then ["shift"] else [])
        ++ (if modifiers &&& MOD_ALT != 0 then ["alt"] else [])
        ++ (if modifiers &&& MOD_WIN != 0 then ["win"] else [])
        ++ [key]))

/-- The trigger keys of the spec's round-trip domain: all letters, all
digits, `f1`–`f24`, and the named-key table. -/
def validTriggerKeys : List Nat :=
  (List.range 26).map (fun i => 0x41 + i)
    ++ (List.range 10).map (fun i => 0x30 + i)
    ++ (List.range 24).map (fun i => VK_F1 + i)
    ++ [VK_SPACE, VK_RETURN, VK_ESCAPE, VK_TAB, VK_BACK, VK_DELETE,
        VK_INSERT, VK_HOME, VK_END, VK_PRIOR, VK_NEXT, VK_UP, VK_DOWN,
        VK_LEFT, VK_RIGHT, VK_NUMLOCK, VK_SCROLL, VK_PAUSE, VK_SNAPSHOT]

/-- The round-trip test for one binding: formatting succeeds and re-parsing
the text recovers the same modifier mask and trigger key. -/
def roundtripOK (modifiers vk : Nat) : Bool :=
  match format_hotkey modifiers vk with
  | some t => parse_hotkey t == some (modifiers, vk)
  | none => false

/-! ## Shared application state (`main.rs`, `tray.rs`) -/

/-- Struct `AppState` of `main.rs` lines 20–27, with the atomics as plain
booleans. -/
structure AppState where
  locked : Bool
  should_quit : Bool
  show_settings : Bool
deriving DecidableEq, Repr

/-- Constructor `AppState::new` of `main.rs` lines 29–37. -/
def AppState.new : AppState :=
  { locked := false, should_quit := false, show_settings := false }

/-- The tray menu's manual lock toggle (`run_tray_loop`, `tray.rs` lines
131–135): load the current value of the atomic `locked` flag, store its
negation; the result is the new flag value. -/
def menu_toggle_lock (locked : Bool) : Bool :=
  let current := locked
  !current

/-! ## The spec's view of modifier matching

The spec states `modifiers_match` over a set of the four modifier roles;
this type and the two accessors let exact-match be stated the spec's way
and compared with the source's `check_modifiers`. -/

/-- The four modifier roles of the spec's `modifier_set`. -/
inductive Modifier where
  | control
  | shift
  | alt
  | meta
deriving DecidableEq, Repr

/-- The hotkey modifier flag of each role. -/
def Modifier.flag : Modifier → Nat
  | .control => MOD_CONTROL
  | .shift => MOD_SHIFT
  | .alt => MOD_ALT
  | .meta => MOD_WIN

/-- Whether a role is in the required set encoded as a flag mask. -/
def requiredHas (required : Nat) (m : Modifier) : Bool :=
  required &&& m.flag != 0

/-- Whether a role is held in a live snapshot. -/
def held (live : ModifierSnapshot) : Modifier → Bool
  | .control => live.ctrl
  | .shift => live.shift
  | .alt => live.alt
  | .meta => live.win

/-! ## Helper lemmas about the hook callback -/

/-- On a matched non-modifier keydown the callback body swallows and
negates the lock flag. -/
theorem hook_body_matched (hk : HookState) (wparam vk : Nat)
    (live : ModifierSnapshot) (locked : Bool)
    (hkd : is_keydown wparam = true) (hnm : is_modifier_vk vk = false)
    (hvk : vk = hk.hotkey_vk)
    (hcm : check_modifiers hk.hotkey_modifiers live = true) :
    hook_body hk wparam vk live locked = (Verdict.swallow, !locked) := by
  subst hvk
  simp [hook_body, hkd, hnm, hcm]

/-- On an unmatched non-modifier keydown the callback body leaves the lock
flag alone and swallows exactly when locked. -/
theorem hook_body_unmatched (hk : HookState) (wparam vk : Nat)
    (live : ModifierSnapshot) (locked : Bool)
    (hnm : is_modifier_vk vk = false)
    (hnomatch : ¬(vk = hk.hotkey_vk ∧
      check_modifiers hk.hotkey_modifiers live = true)) :
    hook_body hk wparam vk live locked
      = ((if locked then Verdict.swallow else Verdict.forward), locked) := by
  have hb : (vk == hk.hotkey_vk
      && check_modifiers hk.hotkey_modifiers live) = false := by
    cases hc : check_modifiers hk.hotkey_modifiers live
    · simp
    · simp
      exact fun hEq => hnomatch ⟨hEq, hc⟩
  cases locked <;> simp [hook_body, hb, hnm]

/-- On a modifier-key event the callback body forwards and leaves the lock
flag alone, in both lock states. -/
theorem hook_body_modifier (hk : HookState) (wparam vk : Nat)
    (live : ModifierSnapshot) (locked : Bool)
    (hm : is_modifier_vk vk = true) :
    hook_body hk wparam vk live locked = (Verdict.forward, locked) := by
  cases locked <;> simp [hook_body, hm]

/-- The lock flag changes only on a matched non-modifier keydown. -/
theorem hook_body_change (hk : HookState) (wparam vk : Nat)
    (live : ModifierSnapshot) (locked : Bool)
    (h : (hook_body hk wparam vk live locked).2 ≠ locked) :
    is_keydown wparam = true ∧ is_modifier_vk vk = false ∧
      vk = hk.hotkey_vk ∧ check_modifiers hk.hotkey_modifiers live = true := by
  by_cases hc : (is_keydown wparam && !is_modifier_vk vk
      && (vk == hk.hotkey_vk
          && check_modifiers hk.hotkey_modifiers live)) = true
  · simp only [Bool.and_eq_true, Bool.not_eq_true', beq_iff_eq] at hc
    exact ⟨hc.1.1, hc.1.2, hc.2.1, hc.2.2⟩
  · exfalso
    apply h
    rw [hook_body, if_neg (by simpa using hc)]
    cases locked <;> cases hm : is_modifier_vk vk <;> simp [hm]

/-! ## Helper lemmas about the parser -/

/-- The fixed token strings of `parse_hotkey`'s arms: the modifier tokens
and the named-key table. -/
def knownTokens : List String :=
  ["ctrl", "control", "alt", "shift", "win", "windows", "space", "enter",
   "return", "escape", "esc", "tab", "backspace", "delete", "del", "insert",
   "ins", "home", "end", "pageup", "pgup", "pagedown", "pgdn", "up", "down",
   "left", "right", "numlock", "scrolllock", "pause", "printscreen", "prtsc"]

set_option maxHeartbeats 1000000 in
/-- The trigger-key component of one loop iteration: a token that resolves
a key overwrites the accumulator, any other token leaves it. -/
theorem applyPart_snd (acc : Nat × Option Nat) (part : String) :
    (applyPart acc part).2 = (partKey part).or acc.2 := by
  by_cases hmem : part ∈ knownTokens
  · fin_cases hmem <;> rfl
  · simp only [knownTokens, List.mem_cons, List.not_mem_nil, or_false]
      at hmem
    push_neg at hmem
    obtain ⟨n1, n2, n3, n4, n5, n6, n7, n8, n9, n10, n11, n12, n13, n14, n15,
      n16, n17, n18, n19, n20, n21, n22, n23, n24, n25, n26, n27, n28, n29,
      n30, n31, n32⟩ := hmem
    simp only [applyPart, partKey, n1, n2, n3, n4, n5, n6, n7, n8, n9, n10,
      n11, n12, n13, n14, n15, n16, n17, n18, n19, n20, n21, n22, n23, n24,
      n25, n26, n27, n28, n29, n30, n31, n32, decide_False, Bool.or_false,
      Bool.false_or, if_false, Bool.false_eq_true, if_neg, ite_false]
    split_ifs <;> try rfl
    cases h : rsParseU32 (rsDropOne part) <;> simp only [h] <;>
      first
        | rfl
        | (split_ifs <;> rfl)

/-- Over the whole token loop, the trigger key is the last one any token
resolves, over the initial accumulator. -/
theorem foldl_applyPart_snd (ps : List String) (acc : Nat × Option Nat) :
    (ps.foldl applyPart acc).2
      = ps.foldl (fun a p => (partKey p).or a) acc.2 := by
  induction ps generalizing acc with
  | nil => rfl
  | cons p ps ih =>
    rw [List.foldl_cons, List.foldl_cons, ih, applyPart_snd]

/-- The last-resolved-key fold is `none` iff no token resolves a key. -/
theorem foldl_or_eq_none (ps : List String) (a : Option Nat) :
    ps.foldl (fun a p => (partKey p).or a) a = none
      ↔ a = none ∧ ∀ p ∈ ps, partKey p = none := by
  induction ps generalizing a with
  | nil => simp
  | cons p ps ih =>
    rw [List.foldl_cons, ih]
    cases hp : partKey p <;> simp [hp, Option.or]

/-- If the last-resolved-key fold yields a key, some token resolved it. -/
theorem foldl_or_eq_some (ps : List String) (a : Option Nat) (k : Nat)
    (h : ps.foldl (fun a p => (partKey p).or a) a = some k) :
    a = some k ∨ ∃ p ∈ ps, partKey p = some k := by
  induction ps generalizing a with
  | nil => exact Or.inl h
  | cons p ps ih =>
    rw [List.foldl_cons] at h
    rcases ih _ h with h2 | h2
    · cases hp : partKey p with
      | none => rw [hp, Option.or] at h2; exact Or.inl h2
      | some k2 =>
          rw [hp, Option.or] at h2
          exact Or.inr ⟨p, List.mem_cons_self p ps, hp.trans h2⟩
    · obtain ⟨q, hq, hqk⟩ := h2
      exact Or.inr ⟨q, List.mem_cons_of_mem p hq, hqk⟩

/-- A letter character's code point is never a modifier virtual key. -/
theorem alpha_toNat_not_modifier (c : Char) (h : c.isAlpha = true) :
    is_modifier_vk c.toNat = false := by
  have hb : (65 ≤ c.toNat ∧ c.toNat ≤ 90)
      ∨ (97 ≤ c.toNat ∧ c.toNat ≤ 122) := by
    simp [Char.isAlpha, Char.isUpper, Char.isLower] at h
    rcases h with ⟨h1, h2⟩ | ⟨h1, h2⟩
    · exact Or.inl ⟨h1, h2⟩
    · exact Or.inr ⟨h1, h2⟩
  simp only [is_modifier_vk, VK_LCONTROL, VK_RCONTROL, VK_LSHIFT, VK_RSHIFT,
    VK_LMENU, VK_RMENU, VK_LWIN, VK_RWIN, VK_CONTROL, VK_SHIFT, VK_MENU,
    Bool.or_eq_false_iff, decide_eq_false_iff_not]
  omega

/-- A digit character's code point is never a modifier virtual key. -/
theorem digit_toNat_not_modifier (c : Char) (h : c.isDigit = true) :
    is_modifier_vk c.toNat = false := by
  have hb : 48 ≤ c.toNat ∧ c.toNat ≤ 57 := by
    simp [Char.isDigit] at h
    exact h
  simp only [is_modifier_vk, VK_LCONTROL, VK_RCONTROL, VK_LSHIFT, VK_RSHIFT,
    VK_LMENU, VK_RMENU, VK_LWIN, VK_RWIN, VK_CONTROL, VK_SHIFT, VK_MENU,
    Bool.or_eq_false_iff, decide_eq_false_iff_not]
  omega

/-- A function-key code `f1`–`f24` is never a modifier virtual key. -/
theorem fkey_not_modifier (num : Nat) (h1 : 1 ≤ num) (h2 : num ≤ 24) :
    is_modifier_vk (VK_F1 + num - 1) = false := by
  simp only [is_modifier_vk, VK_F1, VK_LCONTROL, VK_RCONTROL, VK_LSHIFT,
    VK_RSHIFT, VK_LMENU, VK_RMENU, VK_LWIN, VK_RWIN, VK_CONTROL, VK_SHIFT,
    VK_MENU, Bool.or_eq_false_iff, decide_eq_false_iff_not]
  omega

set_option maxHeartbeats 1000000 in
/-- Every trigger key a single token can resolve is a non-modifier key. -/
theorem partKey_not_modifier (part : String) (k : Nat)
    (h : partKey part = some k) : is_modifier_vk k = false := by
  by_cases hmem : part ∈ knownTokens
  · fin_cases hmem <;>
      first
        | exact Option.noConfusion h
        | (obtain rfl := (Option.some.inj h).symm; decide)
  · simp only [knownTokens, List.mem_cons, List.not_mem_nil, or_false]
      at hmem
    push_neg at hmem
    obtain ⟨n1, n2, n3, n4, n5, n6, n7, n8, n9, n10, n11, n12, n13, n14, n15,
      n16, n17, n18, n19, n20, n21, n22, n23, n24, n25, n26, n27, n28, n29,
      n30, n31, n32⟩ := hmem
    simp only [partKey, n1, n2, n3, n4, n5, n6, n7, n8, n9, n10,
      n11, n12, n13, n14, n15, n16, n17, n18, n19, n20, n21, n22, n23, n24,
      n25, n26, n27, n28, n29, n30, n31, n32, decide_False, Bool.or_false,
      Bool.false_or, if_false, Bool.false_eq_true, if_neg, ite_false]
      at h
    split_ifs at h with hsize halpha hdigit hf
    all_goals
      first
        | exact Option.noConfusion h
        | (obtain rfl := (Option.some.inj h).symm
           exact alpha_toNat_not_modifier _ halpha)
        | (obtain rfl := (Option.some.inj h).symm
           exact digit_toNat_not_modifier _ hdigit)
        | (cases hp : rsParseU32 (rsDropOne part) with
            | none => rw [hp] at h; exact Option.noConfusion h
            | some num =>
                rw [hp] at h
                dsimp only at h
                split_ifs at h with hrange
                obtain rfl := (Option.some.inj h).symm
                simp only [Bool.and_eq_true, decide_eq_true_eq] at hrange
                exact fkey_not_modifier num hrange.1 hrange.2)

/-! ## Claim theorems -/

/-- C1: a keydown of a non-modifier key equal to the binding's trigger key,
with exactly the binding's required modifiers held, makes the hook callback
toggle the lock state (each state maps to the other) and return the swallow
verdict, so the event never reaches other applications. -/
theorem hotkey_match_toggles_and_swallows (hk : HookState) (code : Int)
    (wparam vk : Nat) (live : ModifierSnapshot) (locked : Bool)
    (hcode : 0 ≤ code) (hkd : is_keydown wparam = true)
    (hnm : is_modifier_vk vk = false) (hvk : vk = hk.hotkey_vk)
    (hcm : check_modifiers hk.hotkey_modifiers live = true) :
    keyboard_hook_proc (some hk) code wparam vk live locked
      = (Verdict.swallow, !locked) := by
  rw [keyboard_hook_proc, if_pos hcode]
  exact hook_body_matched hk wparam vk live locked hkd hnm hvk hcm

/-- Witness for C1: binding `Control+B`, keydown of `B` with exactly
Control held, starting unlocked, swallows and locks. -/
theorem hotkey_match_toggles_and_swallows_witness :
    keyboard_hook_proc (some ⟨MOD_CONTROL, 0x42⟩) 0 WM_KEYDOWN 0x42
        ⟨true, false, false, false⟩ false
      = (Verdict.swallow, true) :=
  hotkey_match_toggles_and_swallows ⟨MOD_CONTROL, 0x42⟩ 0 WM_KEYDOWN 0x42
    ⟨true, false, false, false⟩ false (by decide) (by decide) (by decide)
    (by decide) (by decide)

/-- C2: a keydown of a non-modifier key that does not match the binding is
swallowed when locked and forwarded when unlocked, whatever the modifiers,
and the lock state does not change. -/
theorem nonmatching_keydown_verdict_by_lock (hk : HookState) (code : Int)
    (wparam vk : Nat) (live : ModifierSnapshot) (locked : Bool)
    (hcode : 0 ≤ code) (hkd : is_keydown wparam = true)
    (hnm : is_modifier_vk vk = false)
    (hnomatch : ¬(vk = hk.hotkey_vk ∧
      check_modifiers hk.hotkey_modifiers live = true)) :
    keyboard_hook_proc (some hk) code wparam vk live locked
      = ((if locked then Verdict.swallow else Verdict.forward), locked) := by
  rw [keyboard_hook_proc, if_pos hcode]
  exact hook_body_unmatched hk wparam vk live locked hnm hnomatch

/-- Witness for C2: binding `Control+B`, keydown of `A` with Control held:
swallowed while locked, forwarded while unlocked, state unchanged. -/
theorem nonmatching_keydown_verdict_by_lock_witness :
    keyboard_hook_proc (some ⟨MOD_CONTROL, 0x42⟩) 0 WM_KEYDOWN 0x41
        ⟨true, false, false, false⟩ true = (Verdict.swallow, true) ∧
    keyboard_hook_proc (some ⟨MOD_CONTROL, 0x42⟩) 0 WM_KEYDOWN 0x41
        ⟨true, false, false, false⟩ false = (Verdict.forward, false) :=
  ⟨nonmatching_keydown_verdict_by_lock ⟨MOD_CONTROL, 0x42⟩ 0 WM_KEYDOWN 0x41
      ⟨true, false, false, false⟩ true (by decide) (by decide) (by decide)
      (by decide),
    nonmatching_keydown_verdict_by_lock ⟨MOD_CONTROL, 0x42⟩ 0 WM_KEYDOWN 0x41
      ⟨true, false, false, false⟩ false (by decide) (by decide) (by decide)
      (by decide)⟩

/-- C3: any event (keydown or keyup) of a key classified as a modifier is
forwarded by the hook callback in both lock states, and never toggles the
lock state. -/
theorem modifier_events_always_forward (hk : HookState) (code : Int)
    (wparam vk : Nat) (live : ModifierSnapshot) (locked : Bool)
    (hcode : 0 ≤ code) (hm : is_modifier_vk vk = true) :
    keyboard_hook_proc (some hk) code wparam vk live locked
      = (Verdict.forward, locked) := by
  rw [keyboard_hook_proc, if_pos hcode]
  exact hook_body_modifier hk wparam vk live locked hm

/-- Witness for C3: a keydown of left Shift while locked is forwarded and
leaves the state locked. -/
theorem modifier_events_always_forward_witness :
    keyboard_hook_proc (some ⟨MOD_CONTROL, 0x42⟩) 0 WM_KEYDOWN VK_LSHIFT
        ⟨false, true, false, false⟩ true = (Verdict.forward, true) :=
  modifier_events_always_forward ⟨MOD_CONTROL, 0x42⟩ 0 WM_KEYDOWN VK_LSHIFT
    ⟨false, true, false, false⟩ true (by decide) (by decide)

/-- C7: the tray menu's manual toggle and the hotkey-match toggle have
identical semantics: from every starting state the lock state after a menu
toggle equals the lock state after a matched-hotkey toggle (both are the
atomic boolean flip). -/
theorem menu_toggle_equals_hotkey_toggle (hk : HookState) (code : Int)
    (wparam vk : Nat) (live : ModifierSnapshot) (locked : Bool)
    (hcode : 0 ≤ code) (hkd : is_keydown wparam = true)
    (hnm : is_modifier_vk vk = false) (hvk : vk = hk.hotkey_vk)
    (hcm : check_modifiers hk.hotkey_modifiers live = true) :
    (keyboard_hook_proc (some hk) code wparam vk live locked).2
      = menu_toggle_lock locked := by
  rw [keyboard_hook_proc, if_pos hcode,
    hook_body_matched hk wparam vk live locked hkd hnm hvk hcm]
  rfl

/-- Witness for C7: with binding `Control+B` and `B` pressed under exactly
Control, the hook toggle from unlocked agrees with the menu toggle. -/
theorem menu_toggle_equals_hotkey_toggle_witness :
    (keyboard_hook_proc (some ⟨MOD_CONTROL, 0x42⟩) 0 WM_KEYDOWN 0x42
        ⟨true, false, false, false⟩ false).2 = menu_toggle_lock false :=
  menu_toggle_equals_hotkey_toggle ⟨MOD_CONTROL, 0x42⟩ 0 WM_KEYDOWN 0x42
    ⟨true, false, false, false⟩ false (by decide) (by decide) (by decide)
    (by decide) (by decide)

/-- C8: the lock state is a two-state machine over `Bool` starting at
`false` (unlocked); two successive matched-hotkey keydown toggles return it
to its starting value, and within the hook callback nothing but a matched
non-modifier keydown ever changes it. -/
theorem lock_state_machine (hk : HookState) (live : ModifierSnapshot)
    (locked : Bool) (hnm : is_modifier_vk hk.hotkey_vk = false)
    (hcm : check_modifiers hk.hotkey_modifiers live = true) :
    AppState.new.locked = false ∧
    (hook_body hk WM_KEYDOWN hk.hotkey_vk live
        (hook_body hk WM_KEYDOWN hk.hotkey_vk live locked).2).2 = locked ∧
    (∀ wparam vk live2 l, (hook_body hk wparam vk live2 l).2 ≠ l →
      is_keydown wparam = true ∧ is_modifier_vk vk = false ∧
        vk = hk.hotkey_vk ∧
        check_modifiers hk.hotkey_modifiers live2 = true) := by
  refine ⟨rfl, ?_, fun wparam vk live2 l h =>
    hook_body_change hk wparam vk live2 l h⟩
  rw [hook_body_matched hk WM_KEYDOWN hk.hotkey_vk live locked (by decide)
    hnm rfl hcm]
  rw [hook_body_matched hk WM_KEYDOWN hk.hotkey_vk live (!locked) (by decide)
    hnm rfl hcm]
  simp

/-- Witness for C8: binding `Control+B`, two matched toggles from unlocked
end unlocked. -/
theorem lock_state_machine_witness :
    (hook_body ⟨MOD_CONTROL, 0x42⟩ WM_KEYDOWN 0x42
        ⟨true, false, false, false⟩
        (hook_body ⟨MOD_CONTROL, 0x42⟩ WM_KEYDOWN 0x42
          ⟨true, false, false, false⟩ false).2).2 = false :=
  (lock_state_machine ⟨MOD_CONTROL, 0x42⟩ ⟨true, false, false, false⟩ false
    (by decide) (by decide)).2.1

/-- C4: `check_modifiers` has exact-match semantics: it returns true iff
each of Control, Shift, Alt, Meta is held exactly when its flag is in the
required mask; in particular the binding mask `{Control}` does not match
when both Control and Shift are held. -/
theorem check_modifiers_exact :
    (∀ required live, check_modifiers required live = true ↔
      ∀ m : Modifier, requiredHas required m = held live m) ∧
    check_modifiers MOD_CONTROL ⟨true, true, false, false⟩ = false := by
  refine ⟨fun required live => ?_, by decide⟩
  show ((requiredHas required .control == held live .control)
      && (requiredHas required .shift == held live .shift)
      && (requiredHas required .alt == held live .alt)
      && (requiredHas required .meta == held live .meta)) = true ↔ _
  simp only [Bool.and_eq_true, beq_iff_eq]
  constructor
  · rintro ⟨⟨⟨h1, h2⟩, h3⟩, h4⟩ m
    cases m
    · exact h1
    · exact h2
    · exact h3
    · exact h4
  · intro h
    exact ⟨⟨⟨h .control, h .shift⟩, h .alt⟩, h .meta⟩

/-- C5: whenever `parse_hotkey` resolves no trigger key (such as on
`"ctrl++"`), the Hook Engine caller substitutes the built-in default
binding `Control+B` instead of failing. -/
theorem unparseable_hotkey_gets_default (s : String)
    (h : parse_hotkey s = none) :
    resolve_binding s = (MOD_CONTROL, 0x42) := by
  rw [resolve_binding, h]
  rfl

/-- Witness for C5: the malformed configuration text `"ctrl++"` parses to
no binding and resolves to the default `Control+B` (`(2, 0x42)`). -/
theorem unparseable_hotkey_gets_default_witness :
    parse_hotkey "ctrl++" = none ∧
      resolve_binding "ctrl++" = (MOD_CONTROL, 0x42) :=
  ⟨by decide, unparseable_hotkey_gets_default "ctrl++" (by decide)⟩

/-- Counterexample to C6: `"a+b"` contains two non-modifier tokens that
both resolve to known keys, yet `parse_hotkey` does not leave the trigger
key unset — it returns the binding of the later token `b`. -/
theorem duplicate_key_tokens_counterexample :
    partKey "a" = some 0x41 ∧ partKey "b" = some 0x42 ∧
      parse_hotkey "a+b" = some (0, 0x42) ∧ parse_hotkey "a+b" ≠ none := by
  refine ⟨by decide, by decide, by decide, ?_⟩
  intro h
  exact Option.noConfusion h

/-- C6 as amended: a token that resolves to a known key overwrites any
earlier trigger key, so with several resolving tokens the last one wins
(`"ctrl+a+b"` parses to `Control+B`); the trigger key is left unset — and
the binding treated as absent (`parse_hotkey` returns `none`) — exactly
when no token of the string resolves to a known key identifier. -/
theorem parse_hotkey_last_key_wins :
    (∀ s, (parse_hotkey s).map Prod.snd
        = (hotkeyParts s).foldl (fun a p => (partKey p).or a) none) ∧
    parse_hotkey "ctrl+a+b" = some (MOD_CONTROL, 0x42) ∧
    (∀ s, parse_hotkey s = none
        ↔ ∀ p ∈ hotkeyParts s, partKey p = none) := by
  refine ⟨fun s => ?_, by decide, fun s => ?_⟩
  · have h2 : ((hotkeyParts s).foldl applyPart (0, none)).2
        = (hotkeyParts s).foldl (fun a p => (partKey p).or a) none :=
      foldl_applyPart_snd _ _
    simp only [parse_hotkey]
    rw [← h2]
    cases ((hotkeyParts s).foldl applyPart (0, none)).2 <;> rfl
  · have h2 : ((hotkeyParts s).foldl applyPart (0, none)).2
        = (hotkeyParts s).foldl (fun a p => (partKey p).or a) none :=
      foldl_applyPart_snd _ _
    simp only [parse_hotkey]
    rw [Option.map_eq_none', h2, foldl_or_eq_none]
    simp

/-- C10: every binding `parse_hotkey` can produce has a non-modifier
trigger key, so the hook callback's matched-hotkey branch (guarded by the
key not being a modifier) is reachable for every parseable binding. -/
theorem parse_hotkey_trigger_not_modifier (s : String) (m vk : Nat)
    (h : parse_hotkey s = some (m, vk)) : is_modifier_vk vk = false := by
  simp only [parse_hotkey] at h
  rw [Option.map_eq_some'] at h
  obtain ⟨vk', hvk', heq⟩ := h
  injection heq with hm hk
  subst hk
  have h2 : ((hotkeyParts s).foldl applyPart (0, none)).2
      = (hotkeyParts s).foldl (fun a p => (partKey p).or a) none :=
    foldl_applyPart_snd _ _
  rw [h2] at hvk'
  rcases foldl_or_eq_some _ _ _ hvk' with hbad | ⟨p, _, hpk⟩
  · exact Option.noConfusion hbad
  · exact partKey_not_modifier p _ hpk

/-- Witness for C10: the parseable binding `"ctrl+b"` yields trigger key
`0x42`, which is not a modifier key. -/
theorem parse_hotkey_trigger_not_modifier_witness :
    is_modifier_vk 0x42 = false :=
  parse_hotkey_trigger_not_modifier "ctrl+b" MOD_CONTROL 0x42 (by decide)

set_option maxHeartbeats 4000000 in
/-- C9: for every modifier mask and every trigger key that is a letter, a
digit, one of `f1`–`f24`, or an entry of the named-key table, formatting
the binding to hotkey text and re-parsing it with `parse_hotkey` recovers
the same modifier set and trigger key. -/
theorem parse_format_roundtrip (m vk : Nat) (hm : m < 16)
    (hvk : vk ∈ validTriggerKeys) :
    ∃ t, format_hotkey m vk = some t ∧ parse_hotkey t = some (m, vk) := by
  have hall : ((List.range 16).all (fun m =>
      validTriggerKeys.all (fun vk => roundtripOK m vk))) = true := by decide
  rw [List.all_eq_true] at hall
  have h1 := hall m (List.mem_range.mpr hm)
  rw [List.all_eq_true] at h1
  have h2 := h1 vk hvk
  unfold roundtripOK at h2
  cases hf : format_hotkey m vk with
  | none => rw [hf] at h2; exact Bool.noConfusion h2
  | some t =>
      rw [hf] at h2
      dsimp only at h2
      exact ⟨t, rfl, beq_iff_eq.mp h2⟩

/-- Witness for C9: the binding with mask `{Control, Shift}` and trigger
`B` formats to `"ctrl+shift+b"` and re-parses to itself. -/
theorem parse_format_roundtrip_witness :
    ∃ t, format_hotkey 6 0x42 = some t ∧ parse_hotkey t = some (6, 0x42) :=
  parse_format_roundtrip 6 0x42 (by decide) (by decide)

end PawGate
